import Mathlib

/-!
# go-web-server: the three HTTP handlers of `main.go`

A shallow embedding of `src/main.go`.  The program is glue around four
collaborators of the Go standard library, and each of them is embedded the
same way:

* the outside world (remote HTTP service, database handle, template set,
  XML tokenizer, the two string escapers) is a record of answers, `World`;
* every call that reaches the outside is appended to a log of `Event`s;
* the `http.ResponseWriter` is a small state machine (`ResponseWriter`) with
  the rule of `net/http`: the first `WriteHeader` or the first `Write` fixes
  the status, later `WriteHeader` calls change nothing;
* `encoding/xml` is embedded for the two struct shapes of the program, on
  the tree of elements of a document, following the field tags of the source.
-/

namespace GoWebServer

/-! ## Go values -/

/-- A Go `error`: `none` is `nil`, `some msg` is an error whose `Error()` is `msg`. -/
abbrev GoError := Option String

/-- The text `err.Error()` of an error (the handlers only ask for it under
`errorIsPresent`). -/
def GoError.Error (err : GoError) : String :=
  match err with
  | some msg => msg
  | none => ""

/-- `func errorIsNil(err error) bool { return err == nil }` -/
def errorIsNil (err : GoError) : Bool :=
  match err with
  | none => true
  | some _ => false

/-- `func errorIsPresent(err error) bool { return !errorIsNil(err) }` -/
def errorIsPresent (err : GoError) : Bool :=
  !errorIsNil err

/-- A Go slice value, keeping the difference between the `nil` slice (what
`var s []T` holds) and an allocated one (`[]T{}`, or anything `append` returns):
both have length zero when empty, but `encoding/json` writes them differently. -/
inductive GoSlice (α : Type) where
  | nil : GoSlice α
  | alloc (elems : List α) : GoSlice α
  deriving DecidableEq, Repr

/-- The elements of a slice, in order. -/
def GoSlice.toList {α : Type} : GoSlice α → List α
  | .nil => []
  | .alloc elems => elems

/-- Go `append(s, x)`: the result is always an allocated slice. -/
def GoSlice.append {α : Type} (s : GoSlice α) (x : α) : GoSlice α :=
  .alloc (s.toList ++ [x])

/-- Go `append` of the elements of a list, one after the other: without an
element the slice is left as it was, the nil slice stays nil. -/
def GoSlice.appendAll {α : Type} (s : GoSlice α) : List α → GoSlice α
  | [] => s
  | x :: xs => (s.append x).appendAll xs

/-! ## The data types of `main.go` -/

/-- `type Page struct { Name string; DbStatus bool }` -/
structure Page where
  Name : String
  DbStatus : Bool
  deriving DecidableEq, Repr

/-- `type SearchResult struct`, fields tagged `title,attr`, `author,attr`,
`hyr,attr`, `owi,attr`. -/
structure SearchResult where
  Title : String
  Author : String
  Year : String
  ID : String
  deriving DecidableEq, Repr

/-- The anonymous struct of `ClassifyBookResponse.BookData`
(`title,attr`, `author,attr`, `owi,attr`). -/
structure BookData where
  Title : String
  Author : String
  ID : String
  deriving DecidableEq, Repr

/-- The anonymous struct of `ClassifyBookResponse.Classification` (`sfa,attr`). -/
structure Classification where
  MostPopular : String
  deriving DecidableEq, Repr

/-- `type ClassifyBookResponse struct`: `BookData` tagged `work`,
`Classification` tagged `recommendations>ddc>mostPopular`. -/
structure ClassifyBookResponse where
  BookData : BookData
  Classification : Classification
  deriving DecidableEq, Repr

/-- `type ClassifySearchResponse struct { Results []SearchResult }`, tagged `works>work`. -/
structure ClassifySearchResponse where
  Results : GoSlice SearchResult
  deriving DecidableEq, Repr

/-- The zero value `SearchResult{}`. -/
def SearchResult.zero : SearchResult := ⟨"", "", "", ""⟩

/-- The zero value `ClassifyBookResponse{}`. -/
def ClassifyBookResponse.zero : ClassifyBookResponse := ⟨⟨"", "", ""⟩, ⟨""⟩⟩

/-- The zero value of `ClassifySearchResponse` (`var cRes ClassifySearchResponse`):
`Results` is the nil slice. -/
def ClassifySearchResponse.zero : ClassifySearchResponse := ⟨.nil⟩

/-- `const classifyAPIBase` -/
def classifyAPIBase : String := "http://classify.oclc.org/classify2/Classify"

/-! ## XML documents and `encoding/xml` on the structs of the program -/

/-- An attribute of a start tag: the namespace of its name (`Name.Space`, empty
for a name without a prefix), its local name (`Name.Local`) and its value.  The
attribute fields of the program carry no namespace in their tags, and the
decoder matches such a field on the local name alone. -/
structure Attr where
  space : String
  name : String
  value : String
  deriving DecidableEq, Repr

/-- An element of a document: its local name, the attributes of its start tag
in the order written, and its child elements in document order.  Character
data, comments and processing instructions are left out: none of the structs
of the program has a field that reads them, the decoder passes over them. -/
inductive Element where
  | mk (name : String) (attrs : List Attr) (children : List Element) : Element

/-- The local name of the element. -/
def Element.name : Element → String
  | .mk n _ _ => n

/-- The attributes of the start tag. -/
def Element.attrs : Element → List Attr
  | .mk _ as _ => as

/-- The child elements. -/
def Element.children : Element → List Element
  | .mk _ _ cs => cs

/-- One attribute offered to a `SearchResult`: the decoder goes through the
fields of the struct and stores the value in each attribute field whose tag
name is the local name of the attribute. -/
def SearchResult.setAttr (sv : SearchResult) (a : Attr) : SearchResult :=
  let sv := if a.name = "title" then { sv with Title := a.value } else sv
  let sv := if a.name = "author" then { sv with Author := a.value } else sv
  let sv := if a.name = "hyr" then { sv with Year := a.value } else sv
  if a.name = "owi" then { sv with ID := a.value } else sv

/-- Unmarshal of a start element into a `SearchResult`: the attributes are
offered one by one in the order written; the struct has no element field, so
the children of the element are skipped. -/
def unmarshalSearchResult (start : Element) (sv : SearchResult) : SearchResult :=
  start.attrs.foldl SearchResult.setAttr sv

/-- One attribute offered to the `BookData` struct. -/
def BookData.setAttr (sv : BookData) (a : Attr) : BookData :=
  let sv := if a.name = "title" then { sv with Title := a.value } else sv
  let sv := if a.name = "author" then { sv with Author := a.value } else sv
  if a.name = "owi" then { sv with ID := a.value } else sv

/-- One attribute offered to the `Classification` struct. -/
def Classification.setAttr (sv : Classification) (a : Attr) : Classification :=
  if a.name = "sfa" then { sv with MostPopular := a.value } else sv

/-- The decoder on one element field of a struct whose tag is the path
`parents > name`: `rest` is the part of `parents` not yet matched above
`start`.  With the path used up, an element called `name` is stored through
`set`; with a path left, an element called like its head is entered and each
of its children is tried against the tail.  The flag says whether the element
was consumed (otherwise the caller skips it). -/
def unmarshalPath {σ : Type} (name : String) (set : Element → σ → σ) :
    List String → Element → σ → Bool × σ
  | [], start, sv =>
      if start.name = name then (true, set start sv) else (false, sv)
  | p :: rest, start, sv =>
      if start.name = p then
        (true, start.children.foldl (fun acc t => (unmarshalPath name set rest t acc).2) sv)
      else (false, sv)

/-- Storing a matched `work` element in `Results []SearchResult`: the slice
grows by one zero element and the element is unmarshalled into it. -/
def ClassifySearchResponse.addResult (start : Element) (sv : ClassifySearchResponse) :
    ClassifySearchResponse :=
  { sv with Results := sv.Results.append (unmarshalSearchResult start SearchResult.zero) }

/-- Unmarshal of the root element of a document into a `ClassifySearchResponse`
(the root may have any name: the struct has no `XMLName`): each child of the
root is tried against the one field, path `works>work`. -/
def unmarshalSearchResponse (root : Element) (sv : ClassifySearchResponse) :
    ClassifySearchResponse :=
  root.children.foldl
    (fun acc c => (unmarshalPath "work" ClassifySearchResponse.addResult ["works"] c acc).2) sv

/-- Storing a matched `work` element in the `BookData` field. -/
def ClassifyBookResponse.setBookData (start : Element) (sv : ClassifyBookResponse) :
    ClassifyBookResponse :=
  { sv with BookData := start.attrs.foldl BookData.setAttr sv.BookData }

/-- Storing a matched `mostPopular` element in the `Classification` field. -/
def ClassifyBookResponse.setClassification (start : Element) (sv : ClassifyBookResponse) :
    ClassifyBookResponse :=
  { sv with Classification := start.attrs.foldl Classification.setAttr sv.Classification }

/-- Unmarshal of the root element into a `ClassifyBookResponse`: each child of
the root is tried against the fields in declaration order, `work` first, then
`recommendations>ddc>mostPopular`. -/
def unmarshalBookResponse (root : Element) (sv : ClassifyBookResponse) :
    ClassifyBookResponse :=
  root.children.foldl
    (fun acc c =>
      let r := unmarshalPath "work" ClassifyBookResponse.setBookData [] c acc
      if r.1 then r.2
      else (unmarshalPath "mostPopular" ClassifyBookResponse.setClassification
              ["recommendations", "ddc"] c acc).2) sv

/-! ## The outside world -/

/-- The `*http.Response` of a successful `http.Get`, as far as the program
looks at it: what `ioutil.ReadAll(res.Body)` returns. -/
structure HttpResponse where
  ReadAll : Except String String

/-- A value bound to a `?` of a SQL statement: Go `nil` or a string. -/
inductive SqlValue where
  | null : SqlValue
  | text (s : String) : SqlValue
  deriving DecidableEq, Repr

/-- The answers of everything outside `main.go` during one request.

* `QueryEscape` is `url.QueryEscape`, `jsonString` the quoted and escaped form
  `encoding/json` gives a Go string;
* `Get` is `http.Get`: an error, or a response;
* `xmlRead` is the tokenizer of `encoding/xml` over a payload: the root element
  of a document it accepts, or the error it stops on; `searchLeft` and
  `bookLeft` are what `xml.Unmarshal` has stored in the destination when it
  stops on that error;
* `Ping` and `Exec` are `db.Ping()` and the error of `db.Exec(query, args...)`;
* `ExecuteTemplate` is `templates.ExecuteTemplate`: the pieces it writes to the
  response, one per `Write`, and the error (execution stops at an error, what
  was written before stays written). -/
structure World where
  QueryEscape : String → String
  jsonString : String → String
  Get : String → Except String HttpResponse
  xmlRead : String → Except String Element
  searchLeft : String → ClassifySearchResponse
  bookLeft : String → ClassifyBookResponse
  Ping : GoError
  Exec : String → List SqlValue → GoError
  ExecuteTemplate : String → Page → List String × GoError

/-- A call that leaves the program, as logged. -/
inductive Event where
  | get (url : String) : Event
  | ping : Event
  | exec (query : String) (args : List SqlValue) : Event
  | render (name : String) (page : Page) : Event
  deriving DecidableEq, Repr

/-- The request, as far as the handlers look at it: the parsed form, a list
of key and value in the order given. -/
structure Request where
  Form : List (String × String)

/-- `req.FormValue(key)`: the first value of `key`, the empty string without one. -/
def Request.FormValue (req : Request) (key : String) : String :=
  match req.Form.lookup key with
  | some v => v
  | none => ""

/-! ## The response writer -/

/-- The state of an `http.ResponseWriter` that records the response (as
`httptest.ResponseRecorder` does; its `Write` never fails): whether the status
line is out, the status, the body so far.  Headers are not modelled. -/
structure ResponseWriter where
  wroteHeader : Bool
  code : Nat
  body : String
  deriving DecidableEq, Repr

/-- A response nothing has been written to: a handler that returns without
writing answers 200 with an empty body. -/
def ResponseWriter.fresh : ResponseWriter := ⟨false, 200, ""⟩

/-- `w.WriteHeader(code)`: only the first call counts. -/
def ResponseWriter.WriteHeader (w : ResponseWriter) (code : Nat) : ResponseWriter :=
  if w.wroteHeader then w else { w with wroteHeader := true, code := code }

/-- `w.Write(data)`: sends the status 200 first when no status is out yet. -/
def ResponseWriter.Write (w : ResponseWriter) (data : String) : ResponseWriter :=
  let w := w.WriteHeader 200
  { w with body := w.body ++ data }

/-- `http.Error(w, error, code)`: `w.WriteHeader(code)`, then
`fmt.Fprintln(w, error)`, the text and a line feed. -/
def httpError (w : ResponseWriter) (error : String) (code : Nat) : ResponseWriter :=
  (w.WriteHeader code).Write (error ++ "\n")

/-- `http.StatusInternalServerError` -/
def StatusInternalServerError : Nat := 500

/-! ## `xml.Unmarshal` and `json.Encoder.Encode` at the types of the program -/

/-- `xml.Unmarshal(data, &cRes)` for a `ClassifySearchResponse`. -/
def xmlUnmarshalSearch (w : World) (data : String) (cRes : ClassifySearchResponse) :
    ClassifySearchResponse × GoError :=
  match w.xmlRead data with
  | .ok root => (unmarshalSearchResponse root cRes, none)
  | .error e => (w.searchLeft data, some e)

/-- `xml.Unmarshal(data, &cRes)` for a `ClassifyBookResponse`. -/
def xmlUnmarshalBook (w : World) (data : String) (cRes : ClassifyBookResponse) :
    ClassifyBookResponse × GoError :=
  match w.xmlRead data with
  | .ok root => (unmarshalBookResponse root cRes, none)
  | .error e => (w.bookLeft data, some e)

/-- `json.Marshal` of one `SearchResult`: an object keyed by the Go field
names (the struct has no `json` tags), in declaration order. -/
def marshalSearchResult (q : String → String) (r : SearchResult) : String :=
  "\x7b\"Title\":" ++ q r.Title ++ ",\"Author\":" ++ q r.Author ++
    ",\"Year\":" ++ q r.Year ++ ",\"ID\":" ++ q r.ID ++ "\x7d"

/-- A JSON array of already marshalled elements. -/
def jsonArray (elems : List String) : String :=
  "[" ++ ",".intercalate elems ++ "]"

/-- `json.Marshal` of a `[]SearchResult`: `null` for the nil slice, an array
otherwise. -/
def marshalResults (q : String → String) : GoSlice SearchResult → String
  | .nil => "null"
  | .alloc elems => jsonArray (elems.map (marshalSearchResult q))

/-- `json.NewEncoder(res).Encode(results)`: the marshalled value and a line
feed in one `Write`.  Marshalling a slice of structs of strings cannot fail and
the recording writer reports no error, so the error returned is `nil`. -/
def jsonEncode (w : World) (res : ResponseWriter) (results : GoSlice SearchResult) :
    ResponseWriter × GoError :=
  (res.Write (marshalResults w.jsonString results ++ "\n"), none)

/-! ## The functions of `main.go` -/

/-- `func classifyAPI(url string) ([]byte, error)` with the log of its calls. -/
def classifyAPI (w : World) (url : String) : (String × GoError) × List Event :=
  match w.Get url with
  | .error e => (("", some e), [.get url])
  | .ok res =>
      match res.ReadAll with
      | .error e => (("", some e), [.get url])
      | .ok body => ((body, none), [.get url])

/-- `func findBook(id string) (ClassifyBookResponse, error)` with the log of its calls. -/
def findBook (w : World) (id : String) : (ClassifyBookResponse × GoError) × List Event :=
  let cRes := ClassifyBookResponse.zero
  let r := classifyAPI w (classifyAPIBase ++ "?summary=tre&owi=" ++ w.QueryEscape id)
  if errorIsPresent r.1.2 then
    ((ClassifyBookResponse.zero, r.1.2), r.2)
  else
    (xmlUnmarshalBook w r.1.1 cRes, r.2)

/-- `func search(query string) ([]SearchResult, error)` with the log of its calls. -/
def search (w : World) (query : String) : (GoSlice SearchResult × GoError) × List Event :=
  let r := classifyAPI w (classifyAPIBase ++ "?summary=true&title=" ++ w.QueryEscape query)
  if errorIsPresent r.1.2 then
    ((.alloc [], r.1.2), r.2)
  else
    let cRes := ClassifySearchResponse.zero
    let u := xmlUnmarshalSearch w r.1.1 cRes
    ((u.1.Results, u.2), r.2)

/-- The handler of `/`: the response and the log of outside calls. -/
def indexHandler (w : World) (req : Request) (res : ResponseWriter) :
    ResponseWriter × List Event :=
  let p : Page := ⟨"Gopher", false⟩
  let name := req.FormValue "name"
  let p := if name ≠ "" then { p with Name := name } else p
  let p := { p with DbStatus := errorIsNil w.Ping }
  let out := w.ExecuteTemplate "index.html" p
  let res := out.1.foldl ResponseWriter.Write res
  let err := out.2
  let res := if errorIsPresent err then httpError res err.Error StatusInternalServerError else res
  (res, [.ping, .render "index.html" p])

/-- The handler of `/search`. -/
def searchHandler (w : World) (req : Request) (res : ResponseWriter) :
    ResponseWriter × List Event :=
  let s := search w (req.FormValue "search")
  let results := s.1.1
  let err := s.1.2
  let res := if errorIsPresent err then httpError res err.Error StatusInternalServerError else res
  let e := jsonEncode w res results
  let res := e.1
  let err := e.2
  let res := if errorIsPresent err then httpError res err.Error StatusInternalServerError else res
  (res, s.2)

/-- The statement of the `/books/add` handler. -/
def insertBookSQL : String :=
  "INSERT INTO books (pk, title, author, id, classification) VALUES (?,?,?,?,?)"

/-- The values the `/books/add` handler binds for a decoded book. -/
def insertBookArgs (book : ClassifyBookResponse) : List SqlValue :=
  [.null, .text book.BookData.Title, .text book.BookData.Author, .text book.BookData.ID,
    .text book.Classification.MostPopular]

/-- The handler of `/books/add`. -/
def booksAddHandler (w : World) (req : Request) (res : ResponseWriter) :
    ResponseWriter × List Event :=
  let f := findBook w (req.FormValue "id")
  let book := f.1.1
  let err := f.1.2
  let res := if errorIsPresent err then httpError res err.Error StatusInternalServerError else res
  let err := w.Ping
  let res := if errorIsPresent err then httpError res err.Error StatusInternalServerError else res
  let err := w.Exec insertBookSQL (insertBookArgs book)
  let res := if errorIsPresent err then httpError res err.Error StatusInternalServerError else res
  (res, f.2 ++ [.ping, .exec insertBookSQL (insertBookArgs book)])

/-! ## Reading the log and the response -/

/-- What a step adds to the body: nothing when its error is `nil`, the line
`http.Error` writes for it otherwise. -/
def errorLine : GoError → String
  | none => ""
  | some msg => msg ++ "\n"

/-- The statements executed on the store, with their bound values, in order. -/
def inserts : List Event → List (String × List SqlValue)
  | [] => []
  | .exec query args :: rest => (query, args) :: inserts rest
  | _ :: rest => inserts rest

/-- The page the handler of `/` builds for a request. -/
def indexPage (w : World) (req : Request) : Page :=
  ⟨if req.FormValue "name" = "" then "Gopher" else req.FormValue "name", errorIsNil w.Ping⟩

/-- The URL `search` asks for. -/
def searchURL (w : World) (query : String) : String :=
  classifyAPIBase ++ "?summary=true&title=" ++ w.QueryEscape query

/-- The URL `findBook` asks for. -/
def findBookURL (w : World) (id : String) : String :=
  classifyAPIBase ++ "?summary=tre&owi=" ++ w.QueryEscape id

/-- The remote fetch of `url` returns the error `e`: `http.Get` fails with it,
or `ioutil.ReadAll` on the body does. -/
def fetchFails (w : World) (url e : String) : Prop :=
  w.Get url = .error e ∨ ∃ r, w.Get url = .ok r ∧ r.ReadAll = .error e

/-- The fetch of `url` succeeds and the XML decode of what it returns stops on
the error `e`. -/
def decodeFails (w : World) (url e : String) : Prop :=
  ∃ r body, w.Get url = .ok r ∧ r.ReadAll = .ok body ∧ w.xmlRead body = .error e

/-! ## The decode of a search payload, in the words of the specification -/

/-- The value of the attribute called `name` (the name as written, without a
namespace) in a start tag, when there is one. -/
def attrValue (attrs : List Attr) (name : String) : Option String :=
  (attrs.find? (fun a => a.space = "" ∧ a.name = name)).map Attr.value

/-- The value of the attribute `name` of an element, empty without one. -/
def Element.attr (e : Element) (name : String) : String :=
  (attrValue e.attrs name).getD ""

/-- The `work` elements nested under a `works` container of the root, in
document order. -/
def workElements (root : Element) : List Element :=
  ((root.children.filter (fun c => c.name = "works")).map
    (fun ws => ws.children.filter (fun g => g.name = "work"))).flatten

/-- The entry of one `work` element: `title`, `author`, `hyr`, `owi`
attribute for attribute. -/
def specSearchResult (e : Element) : SearchResult :=
  ⟨e.attr "title", e.attr "author", e.attr "hyr", e.attr "owi"⟩

/-- The list `decodeSearchResults` is specified to return for a document. -/
def specDecodeSearchResults (root : Element) : List SearchResult :=
  (workElements root).map specSearchResult

/-- No two attributes of the start tag have the same name, namespace and local
name taken together (the well-formedness constraint of XML on attributes). -/
def Element.uniqueAttrs (e : Element) : Prop :=
  (e.attrs.map (fun a : Attr => (a.space, a.name))).Nodup

instance (e : Element) : Decidable e.uniqueAttrs :=
  inferInstanceAs (Decidable (e.attrs.map (fun a : Attr => (a.space, a.name))).Nodup)

/-- No attribute of the start tag has a name in a namespace. -/
def Element.plainAttrs (e : Element) : Prop :=
  ∀ a ∈ e.attrs, a.space = ""

instance (e : Element) : Decidable e.plainAttrs :=
  inferInstanceAs (Decidable (∀ a ∈ e.attrs, a.space = ""))

/-! ## The decode of a search payload, by local name -/

/-- The value of the last attribute written in a start tag whose local name is
`name`, whatever its namespace, when there is one. -/
def lastAttrValue (attrs : List Attr) (name : String) : Option String :=
  (attrs.reverse.find? (fun a => a.name = name)).map Attr.value

/-- The entry of one `work` element by local name: each field is the value of
the last attribute with the local name `title`, `author`, `hyr`, `owi`, empty
without one. -/
def localSearchResult (e : Element) : SearchResult :=
  ⟨(lastAttrValue e.attrs "title").getD "", (lastAttrValue e.attrs "author").getD "",
    (lastAttrValue e.attrs "hyr").getD "", (lastAttrValue e.attrs "owi").getD ""⟩

/-! ## Concrete worlds -/

/-- A plain stand-in for `encoding/json` string quoting (no escaping). -/
def plainQuote (s : String) : String := "\"" ++ s ++ "\""

/-- The payload of one classified work, owi 999. -/
def dunePayload : String :=
  "<classify><work author=\"Herbert\" owi=\"999\" title=\"Dune\"/>" ++
    "<recommendations><ddc><mostPopular nsfa=\"813.54\" sfa=\"813.54\"/></ddc>" ++
    "</recommendations></classify>"

/-- The document of `dunePayload`. -/
def duneDoc : Element :=
  .mk "classify" []
    [.mk "work" [⟨"", "author", "Herbert"⟩, ⟨"", "owi", "999"⟩, ⟨"", "title", "Dune"⟩] [],
     .mk "recommendations" []
      [.mk "ddc" [] [.mk "mostPopular" [⟨"", "nsfa", "813.54"⟩, ⟨"", "sfa", "813.54"⟩] []]]]

/-- A world in which everything works: the remote service answers every URL
with the payload of one classified work, owi 999. -/
def healthyWorld : World where
  QueryEscape := fun s => s
  jsonString := plainQuote
  Get := fun _ => .ok ⟨.ok dunePayload⟩
  xmlRead := fun _ => .ok duneDoc
  searchLeft := fun _ => ClassifySearchResponse.zero
  bookLeft := fun _ => ClassifyBookResponse.zero
  Ping := none
  Exec := fun _ _ => none
  ExecuteTemplate := fun _ p => (["<h1>Hello, ", p.Name, "</h1>"], none)

/-- Like `healthyWorld`, but the remote service cannot be reached. -/
def unreachableWorld : World :=
  { healthyWorld with Get := fun _ => .error "dial tcp: connection refused" }

/-- Like `healthyWorld`, but the liveness probe of the store fails. -/
def storeDownWorld : World :=
  { healthyWorld with Ping := some "unable to open database file" }

/-- A search payload with two `work` elements under `works`, a `note` between
them and an `input` beside `works`. -/
def twoWorksPayload : String :=
  "<classify><input type=\"title\"/><works>" ++
    "<work author=\"Herbert\" hyr=\"2020\" owi=\"999\" title=\"Dune\"/><note/>" ++
    "<work title=\"Emma\" author=\"Austen\" owi=\"7\" hyr=\"1816\"/></works></classify>"

/-- The document of `twoWorksPayload`. -/
def twoWorksDoc : Element :=
  .mk "classify" []
    [.mk "input" [⟨"", "type", "title"⟩] [],
     .mk "works" []
      [.mk "work" [⟨"", "author", "Herbert"⟩, ⟨"", "hyr", "2020"⟩, ⟨"", "owi", "999"⟩, ⟨"", "title", "Dune"⟩] [],
       .mk "note" [] [],
       .mk "work" [⟨"", "title", "Emma"⟩, ⟨"", "author", "Austen"⟩, ⟨"", "owi", "7"⟩, ⟨"", "hyr", "1816"⟩] []]]

/-- The document `<classify><works></works></classify>`: well formed, no `work`. -/
def noWorksDoc : Element :=
  .mk "classify" [] [.mk "works" [] []]

/-- The remote service answers a title search with `twoWorksDoc`. -/
def twoWorksWorld : World :=
  { healthyWorld with
    Get := fun _ => .ok ⟨.ok twoWorksPayload⟩
    xmlRead := fun _ => .ok twoWorksDoc }

/-- A well-formed search payload whose one `work` element has, after its
`title`, an attribute `x:title` in the namespace `urn:x`. -/
def prefixedPayload : String :=
  "<classify xmlns:x=\"urn:x\"><works>" ++
    "<work title=\"B\" x:title=\"A\"/></works></classify>"

/-- The document of `prefixedPayload`. -/
def prefixedDoc : Element :=
  .mk "classify" [⟨"xmlns", "x", "urn:x"⟩]
    [.mk "works" [] [.mk "work" [⟨"", "title", "B"⟩, ⟨"urn:x", "title", "A"⟩] []]]

/-- The remote service answers a title search with `prefixedDoc`. -/
def prefixedWorld : World :=
  { healthyWorld with
    Get := fun _ => .ok ⟨.ok prefixedPayload⟩
    xmlRead := fun _ => .ok prefixedDoc }

/-- A well-formed search payload that declares the encoding ISO-8859-1. -/
def latin1Payload : String :=
  "<?xml version=\"1.0\" encoding=\"ISO-8859-1\"?>" ++
    "<classify><works><work title=\"B\"/></works></classify>"

/-- The remote service answers a title search with `latin1Payload`: the decoder
has no `CharsetReader` and stops on the declaration, before it stores anything. -/
def latin1World : World :=
  { healthyWorld with
    Get := fun _ => .ok ⟨.ok latin1Payload⟩
    xmlRead := fun _ =>
      .error "xml: encoding \"ISO-8859-1\" declared but Decoder.CharsetReader is nil"
    searchLeft := fun _ => ClassifySearchResponse.zero }

/-- The remote service answers a title search with `noWorksDoc`. -/
def noWorksWorld : World :=
  { healthyWorld with
    Get := fun _ => .ok ⟨.ok "<classify><works></works></classify>"⟩
    xmlRead := fun _ => .ok noWorksDoc }

/-- The remote service answers with a payload cut off after the first `work`:
the decoder stops on an error with one entry stored. -/
def truncatedWorld : World :=
  { healthyWorld with
    Get := fun _ => .ok ⟨.ok "<classify><works><work title=\"Dune\" owi=\"999\"/><wo"⟩
    xmlRead := fun _ => .error "XML syntax error on line 1: unexpected EOF"
    searchLeft := fun _ => ⟨.alloc [⟨"Dune", "", "", "999"⟩]⟩ }

/-- The template writes the head of the page, then fails. -/
def brokenTemplateWorld : World :=
  { healthyWorld with
    ExecuteTemplate := fun _ _ =>
      (["<h1>Hello, "], some "template: index.html:3:12: executing \"index.html\"") }

/-- The template fails before it writes anything. -/
def missingTemplateWorld : World :=
  { healthyWorld with
    ExecuteTemplate := fun _ _ => ([], some "html/template: \"index.html\" is undefined") }

/-! ## Lemmas on the building blocks -/

theorem classifyAPI_log (w : World) (url : String) :
    (classifyAPI w url).2 = [Event.get url] := by
  unfold classifyAPI
  split
  · rfl
  · split <;> rfl

theorem classifyAPI_get_error (w : World) (url e : String) (h : w.Get url = .error e) :
    (classifyAPI w url).1 = ("", some e) := by
  simp [classifyAPI, h]

theorem classifyAPI_read_error (w : World) (url e : String) (r : HttpResponse)
    (h : w.Get url = .ok r) (hr : r.ReadAll = .error e) :
    (classifyAPI w url).1 = ("", some e) := by
  simp [classifyAPI, h, hr]

theorem classifyAPI_ok (w : World) (url body : String) (r : HttpResponse)
    (h : w.Get url = .ok r) (hr : r.ReadAll = .ok body) :
    (classifyAPI w url).1 = (body, none) := by
  simp [classifyAPI, h, hr]

theorem findBook_log (w : World) (id : String) :
    (findBook w id).2 = [Event.get (findBookURL w id)] := by
  unfold findBook findBookURL
  simp only []
  split <;> exact classifyAPI_log _ _

theorem search_log (w : World) (query : String) :
    (search w query).2 = [Event.get (searchURL w query)] := by
  unfold search searchURL
  simp only []
  split <;> exact classifyAPI_log _ _

theorem search_of_fetchFails (w : World) (query e : String)
    (h : fetchFails w (searchURL w query) e) :
    (search w query).1 = (GoSlice.alloc [], some e) := by
  have hc : (classifyAPI w (searchURL w query)).1 = ("", some e) := by
    rcases h with h | ⟨r, h, hr⟩
    · exact classifyAPI_get_error w _ e h
    · exact classifyAPI_read_error w _ e r h hr
  unfold searchURL at hc
  simp [search, hc, errorIsPresent, errorIsNil]

theorem search_of_decodeFails (w : World) (query e : String)
    (h : decodeFails w (searchURL w query) e) :
    ∃ body, (search w query).1 = ((w.searchLeft body).Results, some e) := by
  obtain ⟨r, body, h, hr, hx⟩ := h
  have hc := classifyAPI_ok w _ body r h hr
  unfold searchURL at hc
  exact ⟨body, by simp [search, hc, errorIsPresent, errorIsNil, xmlUnmarshalSearch, hx]⟩

theorem booksAdd_log (w : World) (req : Request) (res : ResponseWriter) :
    (booksAddHandler w req res).2 =
      [Event.get (findBookURL w (req.FormValue "id")), Event.ping,
        Event.exec insertBookSQL (insertBookArgs (findBook w (req.FormValue "id")).1.1)] := by
  simp [booksAddHandler, findBook_log]

/-! ## `/books/add` -/

/-- C1, evaluated on the code: a request to `/books/add?id=42` whose fetch fails
(`findBook` returns an error) still executes the insert, with four empty
strings bound; so does a request whose liveness probe fails, with the decoded
fields bound.  The handler writes the 500 line and goes on. -/
theorem booksAdd_inserts_despite_failure :
    (findBook unreachableWorld "42").1.2 = some "dial tcp: connection refused" ∧
      inserts (booksAddHandler unreachableWorld ⟨[("id", "42")]⟩ ResponseWriter.fresh).2 =
        [(insertBookSQL,
          [SqlValue.null, SqlValue.text "", SqlValue.text "", SqlValue.text "",
            SqlValue.text ""])] ∧
      storeDownWorld.Ping = some "unable to open database file" ∧
      inserts (booksAddHandler storeDownWorld ⟨[("id", "42")]⟩ ResponseWriter.fresh).2 =
        [(insertBookSQL,
          [SqlValue.null, SqlValue.text "Dune", SqlValue.text "Herbert", SqlValue.text "999",
            SqlValue.text "813.54"])] ∧
      (booksAddHandler storeDownWorld ⟨[("id", "42")]⟩ ResponseWriter.fresh).1 =
        ⟨true, 500, "unable to open database file\n"⟩ := by
  decide

/-- C2 as stated fails: the request asks for identifier 42, fetch and decode
succeed, the store accepts the insert, and the identifier bound is 999, the
`owi` attribute of the payload, not the 42 of the request. -/
theorem booksAdd_binds_payload_owi_not_request_id :
    (findBook healthyWorld "42").1 =
        (⟨⟨"Dune", "Herbert", "999"⟩, ⟨"813.54"⟩⟩, none) ∧
      healthyWorld.Exec insertBookSQL
        (insertBookArgs (findBook healthyWorld "42").1.1) = none ∧
      inserts (booksAddHandler healthyWorld ⟨[("id", "42")]⟩ ResponseWriter.fresh).2 =
        [(insertBookSQL,
          [SqlValue.null, SqlValue.text "Dune", SqlValue.text "Herbert", SqlValue.text "999",
            SqlValue.text "813.54"])] ∧
      inserts (booksAddHandler healthyWorld ⟨[("id", "42")]⟩ ResponseWriter.fresh).2 ≠
        [(insertBookSQL,
          [SqlValue.null, SqlValue.text "Dune", SqlValue.text "Herbert", SqlValue.text "42",
            SqlValue.text "813.54"])] := by
  decide

/-- C2, amended: when the fetch for the requested identifier succeeds, the
payload decodes to the document `root` and the store accepts the insert, the
handler executes exactly one statement, the insert, and its bound values are
(NULL, title, author, owi, classification code), all four taken from the
decoded payload: the identifier bound is the `owi` of the payload. -/
theorem booksAdd_inserts_decoded_payload (w : World) (req : Request) (r : HttpResponse)
    (body : String) (root : Element)
    (hget : w.Get (findBookURL w (req.FormValue "id")) = .ok r)
    (hread : r.ReadAll = .ok body)
    (hxml : w.xmlRead body = .ok root)
    (_haccept : w.Exec insertBookSQL
      (insertBookArgs (unmarshalBookResponse root ClassifyBookResponse.zero)) = none) :
    inserts (booksAddHandler w req ResponseWriter.fresh).2 =
      [(insertBookSQL,
        [SqlValue.null,
          SqlValue.text (unmarshalBookResponse root ClassifyBookResponse.zero).BookData.Title,
          SqlValue.text (unmarshalBookResponse root ClassifyBookResponse.zero).BookData.Author,
          SqlValue.text (unmarshalBookResponse root ClassifyBookResponse.zero).BookData.ID,
          SqlValue.text
            (unmarshalBookResponse root ClassifyBookResponse.zero).Classification.MostPopular])] := by
  have hc := classifyAPI_ok w _ body r hget hread
  unfold findBookURL at hc
  have hf : (findBook w (req.FormValue "id")).1 =
      (unmarshalBookResponse root ClassifyBookResponse.zero, none) := by
    simp [findBook, hc, errorIsPresent, errorIsNil, xmlUnmarshalBook, hxml]
  rw [booksAdd_log, hf]
  rfl

/-- The amended C2 at a concrete request: identifier 42 asked for, the payload
of work 999 returned. -/
theorem booksAdd_inserts_decoded_payload_witness :
    inserts (booksAddHandler healthyWorld ⟨[("id", "42")]⟩ ResponseWriter.fresh).2 =
      [(insertBookSQL,
        [SqlValue.null, SqlValue.text "Dune", SqlValue.text "Herbert", SqlValue.text "999",
          SqlValue.text "813.54"])] :=
  booksAdd_inserts_decoded_payload healthyWorld ⟨[("id", "42")]⟩
    ⟨.ok dunePayload⟩ dunePayload duneDoc rfl rfl rfl rfl

/-- C3: whatever the outcomes of the three steps of `/books/add`, the handler
performs the fetch, the liveness probe and the insert, in that order and
nothing else; the body is the error line of each failing step, in step order;
the status is 500 as soon as one step fails; and the response is 200 with
nothing written exactly when no step fails. -/
theorem booksAdd_runs_all_steps (w : World) (req : Request) :
    (booksAddHandler w req ResponseWriter.fresh).2 =
        [Event.get (classifyAPIBase ++ "?summary=tre&owi=" ++ w.QueryEscape (req.FormValue "id")),
          Event.ping,
          Event.exec insertBookSQL (insertBookArgs (findBook w (req.FormValue "id")).1.1)] ∧
      (booksAddHandler w req ResponseWriter.fresh).1.body =
        errorLine (findBook w (req.FormValue "id")).1.2 ++ errorLine w.Ping ++
          errorLine (w.Exec insertBookSQL (insertBookArgs (findBook w (req.FormValue "id")).1.1)) ∧
      (booksAddHandler w req ResponseWriter.fresh).1.code =
        (if (findBook w (req.FormValue "id")).1.2 = none ∧ w.Ping = none ∧
            w.Exec insertBookSQL (insertBookArgs (findBook w (req.FormValue "id")).1.1) = none
          then 200 else 500) ∧
      (((booksAddHandler w req ResponseWriter.fresh).1.code = 200 ∧
          (booksAddHandler w req ResponseWriter.fresh).1.body = "") ↔
        ((findBook w (req.FormValue "id")).1.2 = none ∧ w.Ping = none ∧
          w.Exec insertBookSQL (insertBookArgs (findBook w (req.FormValue "id")).1.1) = none)) ∧
      ((booksAddHandler w req ResponseWriter.fresh).1.wroteHeader = false ↔
        ((findBook w (req.FormValue "id")).1.2 = none ∧ w.Ping = none ∧
          w.Exec insertBookSQL (insertBookArgs (findBook w (req.FormValue "id")).1.1) = none)) := by
  refine ⟨?_, ?_⟩
  · rw [booksAdd_log]
    rfl
  · unfold booksAddHandler
    simp only []
    generalize (findBook w (req.FormValue "id")).1.2 = e1
    generalize w.Exec insertBookSQL _ = e3
    generalize w.Ping = e2
    cases e1 <;> cases e2 <;> cases e3 <;>
      simp [httpError, ResponseWriter.WriteHeader, ResponseWriter.Write, ResponseWriter.fresh,
        errorIsPresent, errorIsNil, errorLine, GoError.Error, StatusInternalServerError,
        String.append_assoc]

/-- C7: `search` issues one GET, to `classifyAPIBase`, `?summary=true&title=`
and the escaped query; `findBook` issues one GET, to `classifyAPIBase`,
`?summary=tre&owi=` and the escaped identifier; the base is the constant of the
source. -/
theorem classify_urls (w : World) (q id : String) :
    (search w q).2 =
        [Event.get (classifyAPIBase ++ "?summary=true&title=" ++ w.QueryEscape q)] ∧
      (findBook w id).2 =
        [Event.get (classifyAPIBase ++ "?summary=tre&owi=" ++ w.QueryEscape id)] ∧
      classifyAPIBase = "http://classify.oclc.org/classify2/Classify" :=
  ⟨search_log w q, findBook_log w id, rfl⟩

/-! ## `/` -/

/-- C6: the page handed to the template shows the value of the `name`
parameter when a name (a non-empty value) is given, and `Gopher` when the
request has no `name` parameter; a `name` given empty reads as no name. -/
theorem index_page_name (w : World) (req : Request) :
    ∃ p : Page,
      (indexHandler w req ResponseWriter.fresh).2 =
          [Event.ping, Event.render "index.html" p] ∧
        (∀ v : String, v ≠ "" → req.Form.lookup "name" = some v → p.Name = v) ∧
        (req.Form.lookup "name" = none → p.Name = "Gopher") ∧
        (req.Form.lookup "name" = some "" → p.Name = "Gopher") := by
  refine ⟨_, rfl, ?_, ?_, ?_⟩
  · intro v hv hl
    simp [Request.FormValue, hl, hv]
  · intro hl
    simp [Request.FormValue, hl]
  · intro hl
    simp [Request.FormValue, hl]

/-- C6 at two requests: `/?name=Ada` shows Ada, `/` shows Gopher. -/
theorem index_page_name_witness :
    (∃ p : Page,
        (indexHandler healthyWorld ⟨[("name", "Ada")]⟩ ResponseWriter.fresh).2 =
            [Event.ping, Event.render "index.html" p] ∧ p.Name = "Ada") ∧
      (∃ p : Page,
        (indexHandler healthyWorld ⟨[]⟩ ResponseWriter.fresh).2 =
            [Event.ping, Event.render "index.html" p] ∧ p.Name = "Gopher") := by
  constructor
  · obtain ⟨p, hlog, hgiven, -, -⟩ := index_page_name healthyWorld ⟨[("name", "Ada")]⟩
    exact ⟨p, hlog, hgiven "Ada" (by decide) rfl⟩
  · obtain ⟨p, hlog, -, habsent, -⟩ := index_page_name healthyWorld ⟨[]⟩
    exact ⟨p, hlog, habsent rfl⟩

/-- C9: the handler of `/` probes the store once, and the `DbStatus` of the
page handed to the template is true exactly when that probe returned no error. -/
theorem index_dbStatus_iff_ping (w : World) (req : Request) :
    ∃ p : Page,
      (indexHandler w req ResponseWriter.fresh).2 =
          [Event.ping, Event.render "index.html" p] ∧
        (p.DbStatus = true ↔ w.Ping = none) := by
  refine ⟨_, rfl, ?_⟩
  cases h : w.Ping <;> simp [errorIsNil]

/-- C10, evaluated on the code: when the template has written the head of the
page and then fails, the status is 200, fixed by the first write, and the body
is the head of the page followed by the error line, not the error text alone;
when it fails before writing, the response is the 500 with the error line. -/
theorem index_render_error_after_output :
    (brokenTemplateWorld.ExecuteTemplate "index.html" ⟨"Gopher", true⟩).2 =
        some "template: index.html:3:12: executing \"index.html\"" ∧
      (indexHandler brokenTemplateWorld ⟨[]⟩ ResponseWriter.fresh).1 =
        ⟨true, 200, "<h1>Hello, template: index.html:3:12: executing \"index.html\"\n"⟩ ∧
      (indexHandler missingTemplateWorld ⟨[]⟩ ResponseWriter.fresh).1 =
        ⟨true, 500, "html/template: \"index.html\" is undefined\n"⟩ := by
  decide

/-! ## `/search` -/

/-- C4: when the fetch for a search fails, or its XML decode does, with the
error `e`, the handler writes the 500 with the line of `e` and goes on to
encode the list `search` returned beside the error: the status is 500 and the
body is the error line followed by the JSON encoding of that list. -/
theorem searchHandler_error_then_json (w : World) (req : Request) (e : String)
    (h : fetchFails w (searchURL w (req.FormValue "search")) e ∨
      decodeFails w (searchURL w (req.FormValue "search")) e) :
    (search w (req.FormValue "search")).1.2 = some e ∧
      (searchHandler w req ResponseWriter.fresh).1.code = 500 ∧
      (searchHandler w req ResponseWriter.fresh).1.body =
        e ++ "\n" ++
          (marshalResults w.jsonString (search w (req.FormValue "search")).1.1 ++ "\n") := by
  have herr : (search w (req.FormValue "search")).1.2 = some e := by
    rcases h with h | h
    · rw [search_of_fetchFails w _ e h]
    · obtain ⟨body, hb⟩ := search_of_decodeFails w _ e h
      rw [hb]
  refine ⟨herr, ?_, ?_⟩ <;>
    simp [searchHandler, herr, jsonEncode, httpError, ResponseWriter.WriteHeader,
      ResponseWriter.Write, ResponseWriter.fresh, errorIsPresent, errorIsNil, GoError.Error,
      StatusInternalServerError]

/-- C4 at a payload cut off after its first `work`: the body is the line of the
syntax error, then the array of the one entry decoded before it. -/
theorem searchHandler_error_then_json_witness :
    (searchHandler truncatedWorld ⟨[("search", "dune")]⟩ ResponseWriter.fresh).1.code = 500 ∧
      (searchHandler truncatedWorld ⟨[("search", "dune")]⟩ ResponseWriter.fresh).1.body =
        "XML syntax error on line 1: unexpected EOF\n" ++
          "[\x7b\"Title\":\"Dune\",\"Author\":\"\",\"Year\":\"\",\"ID\":\"999\"\x7d]\n" :=
  (searchHandler_error_then_json truncatedWorld ⟨[("search", "dune")]⟩
    "XML syntax error on line 1: unexpected EOF"
    (Or.inr ⟨⟨.ok "<classify><works><work title=\"Dune\" owi=\"999\"/><wo"⟩,
      "<classify><works><work title=\"Dune\" owi=\"999\"/><wo", rfl, rfl, rfl⟩)).2

/-- C5, evaluated on the code: for the well-formed document
`<classify><works></works></classify>` fetch and decode succeed, `search` returns
the nil slice, and the body of the 200 response is `null`, not an empty JSON
array; with two `work` elements the body is the array of the two entries. -/
theorem searchHandler_no_works_writes_null :
    (search noWorksWorld "dune").1 = (GoSlice.nil, none) ∧
      (searchHandler noWorksWorld ⟨[("search", "dune")]⟩ ResponseWriter.fresh).1 =
        ⟨true, 200, "null\n"⟩ ∧
      (searchHandler twoWorksWorld ⟨[("search", "dune")]⟩ ResponseWriter.fresh).1 =
        ⟨true, 200,
          "[\x7b\"Title\":\"Dune\",\"Author\":\"Herbert\",\"Year\":\"2020\",\"ID\":\"999\"\x7d," ++
            "\x7b\"Title\":\"Emma\",\"Author\":\"Austen\",\"Year\":\"1816\",\"ID\":\"7\"\x7d]\n"⟩ := by
  decide

/-! ## The decode of a search payload -/

theorem setAttr_fields (sv : SearchResult) (a : Attr) :
    (SearchResult.setAttr sv a).Title = (if a.name = "title" then a.value else sv.Title) ∧
    (SearchResult.setAttr sv a).Author = (if a.name = "author" then a.value else sv.Author) ∧
    (SearchResult.setAttr sv a).Year = (if a.name = "hyr" then a.value else sv.Year) ∧
    (SearchResult.setAttr sv a).ID = (if a.name = "owi" then a.value else sv.ID) := by
  unfold SearchResult.setAttr
  refine ⟨?_, ?_, ?_, ?_⟩ <;> (simp only []; split_ifs <;> rfl)

theorem lastAttrValue_cons (a : Attr) (as : List Attr) (n : String) :
    lastAttrValue (a :: as) n =
      (lastAttrValue as n).or (if a.name = n then some a.value else none) := by
  unfold lastAttrValue
  rw [List.reverse_cons, List.find?_append]
  cases h : List.find? (fun a => decide (a.name = n)) as.reverse with
  | some b => rfl
  | none =>
    by_cases hn : a.name = n <;> simp [List.find?_cons, hn]

theorem lastAttrValue_step (a : Attr) (as : List Attr) (n d : String) :
    (lastAttrValue as n).getD (if a.name = n then a.value else d) =
      (lastAttrValue (a :: as) n).getD d := by
  rw [lastAttrValue_cons]
  cases lastAttrValue as n with
  | some v => rfl
  | none => by_cases hn : a.name = n <;> simp [hn]

theorem foldl_setAttr (attrs : List Attr) (sv : SearchResult) :
    attrs.foldl SearchResult.setAttr sv =
      ⟨(lastAttrValue attrs "title").getD sv.Title, (lastAttrValue attrs "author").getD sv.Author,
        (lastAttrValue attrs "hyr").getD sv.Year, (lastAttrValue attrs "owi").getD sv.ID⟩ := by
  induction attrs generalizing sv with
  | nil => rfl
  | cons a as ih =>
    rw [List.foldl_cons, ih]
    obtain ⟨h1, h2, h3, h4⟩ := setAttr_fields sv a
    rw [h1, h2, h3, h4, lastAttrValue_step, lastAttrValue_step, lastAttrValue_step,
      lastAttrValue_step]

theorem unmarshalSearchResult_eq_local (e : Element) :
    unmarshalSearchResult e SearchResult.zero = localSearchResult e := by
  unfold unmarshalSearchResult
  rw [foldl_setAttr e.attrs]
  rfl

theorem lastAttrValue_eq_none_of_not_mem (attrs : List Attr) (n : String)
    (h : n ∉ attrs.map Attr.name) : lastAttrValue attrs n = none := by
  induction attrs with
  | nil => rfl
  | cons a as ih =>
    simp only [List.map_cons, List.mem_cons, not_or] at h
    have hne : a.name ≠ n := fun hc => h.1 hc.symm
    rw [lastAttrValue_cons, ih h.2]
    simp [hne]

theorem lastAttrValue_eq_attrValue (attrs : List Attr) (n : String)
    (hu : (attrs.map (fun a => (a.space, a.name))).Nodup)
    (hp : ∀ a ∈ attrs, a.space = "") :
    lastAttrValue attrs n = attrValue attrs n := by
  induction attrs with
  | nil => rfl
  | cons a as ih =>
    simp only [List.map_cons, List.nodup_cons] at hu
    have hpa : a.space = "" := hp a (List.mem_cons_self a as)
    have hps : ∀ b ∈ as, b.space = "" := fun b hb => hp b (List.mem_cons_of_mem a hb)
    rw [lastAttrValue_cons, ih hu.2 hps]
    by_cases hn : a.name = n
    · have hnot : n ∉ as.map Attr.name := by
        intro hmem
        obtain ⟨b, hb, hbn⟩ := List.mem_map.1 hmem
        apply hu.1
        refine List.mem_map.2 ⟨b, hb, ?_⟩
        rw [hps b hb, hpa, hbn, hn]
      have hnone : attrValue as n = none := by
        rw [← ih hu.2 hps]
        exact lastAttrValue_eq_none_of_not_mem as n hnot
      rw [hnone]
      simp [attrValue, List.find?_cons, hn, hpa]
    · simp [attrValue, List.find?_cons, hn]

theorem localSearchResult_eq_spec (e : Element) (hu : e.uniqueAttrs) (hp : e.plainAttrs) :
    localSearchResult e = specSearchResult e := by
  unfold localSearchResult specSearchResult Element.attr
  rw [lastAttrValue_eq_attrValue e.attrs _ hu hp, lastAttrValue_eq_attrValue e.attrs _ hu hp,
    lastAttrValue_eq_attrValue e.attrs _ hu hp, lastAttrValue_eq_attrValue e.attrs _ hu hp]

theorem GoSlice.appendAll_append {α : Type} (s : GoSlice α) (xs ys : List α) :
    s.appendAll (xs ++ ys) = (s.appendAll xs).appendAll ys := by
  induction xs generalizing s with
  | nil => rfl
  | cons x xs ih => exact ih _

theorem GoSlice.toList_appendAll {α : Type} (s : GoSlice α) (xs : List α) :
    (s.appendAll xs).toList = s.toList ++ xs := by
  induction xs generalizing s with
  | nil => simp [GoSlice.appendAll]
  | cons x xs ih =>
    show ((s.append x).appendAll xs).toList = _
    rw [ih]
    show (s.toList ++ [x]) ++ xs = _
    simp

theorem works_children_fold (gs : List Element) (acc : ClassifySearchResponse) :
    (gs.foldl (fun acc t =>
        (unmarshalPath "work" ClassifySearchResponse.addResult [] t acc).2) acc).Results =
      acc.Results.appendAll ((gs.filter (fun g => g.name = "work")).map
          (fun g => unmarshalSearchResult g SearchResult.zero)) := by
  induction gs generalizing acc with
  | nil => rfl
  | cons g gs ih =>
    rw [List.foldl_cons, ih]
    by_cases hg : g.name = "work"
    · simp [unmarshalPath, hg, ClassifySearchResponse.addResult, GoSlice.appendAll]
    · simp [unmarshalPath, hg]

theorem unmarshalPath_works (c : Element) (acc : ClassifySearchResponse) :
    (unmarshalPath "work" ClassifySearchResponse.addResult ["works"] c acc).2 =
      if c.name = "works" then
        c.children.foldl (fun acc t =>
          (unmarshalPath "work" ClassifySearchResponse.addResult [] t acc).2) acc
      else acc := by
  rw [unmarshalPath]
  split <;> rfl

theorem root_children_fold (cs : List Element) (acc : ClassifySearchResponse) :
    (cs.foldl (fun acc c =>
        (unmarshalPath "work" ClassifySearchResponse.addResult ["works"] c acc).2) acc).Results =
      acc.Results.appendAll
        (((cs.filter (fun c => c.name = "works")).map
          (fun ws => ws.children.filter (fun g => g.name = "work"))).flatten.map
          (fun g => unmarshalSearchResult g SearchResult.zero)) := by
  induction cs generalizing acc with
  | nil => rfl
  | cons c cs ih =>
    rw [List.foldl_cons, ih, unmarshalPath_works]
    by_cases hc : c.name = "works"
    · rw [if_pos hc, works_children_fold]
      simp [hc, GoSlice.appendAll_append]
    · rw [if_neg hc]
      simp [hc]

theorem unmarshalSearchResponse_results (root : Element) :
    (unmarshalSearchResponse root ClassifySearchResponse.zero).Results =
      GoSlice.nil.appendAll
        ((workElements root).map (fun g => unmarshalSearchResult g SearchResult.zero)) :=
  root_children_fold root.children ClassifySearchResponse.zero

/-- C8 as stated fails on well-formed documents.  In `prefixedDoc` the one
`work` element has the attributes `title="B"` and `x:title="A"`, two different
names; the decoder matches both on the local name `title`, the later one
stays, and the entry has Title `A`, where attribute for attribute it is `B`.
And for `latin1Payload`, well formed with a declared encoding ISO-8859-1, the
decoder stops on the declaration: an error and no entry for the `work`. -/
theorem search_not_attribute_for_attribute :
    prefixedDoc.uniqueAttrs ∧ (∀ e ∈ workElements prefixedDoc, e.uniqueAttrs) ∧
      (search prefixedWorld "b").1 = (GoSlice.alloc [⟨"A", "", "", ""⟩], none) ∧
      specDecodeSearchResults prefixedDoc = [⟨"B", "", "", ""⟩] ∧
      (search prefixedWorld "b").1.1.toList ≠ specDecodeSearchResults prefixedDoc ∧
      (search latin1World "b").1 =
        (GoSlice.nil,
          some "xml: encoding \"ISO-8859-1\" declared but Decoder.CharsetReader is nil") := by
  decide

/-- C8, amended: for a document the decoder accepts, the decode step of
`search` returns no error and exactly one entry per `work` element under a
`works` container of the root, in document order; each field is taken from the
attributes of its element by local name, `title`, `author`, `hyr`, `owi`, the
last one written when several have that local name, empty without one.  When
the `work` elements repeat no attribute and have none in a namespace, that is
attribute for attribute the list of the specification. -/
theorem search_decodes_by_local_name (w : World) (q data : String) (r : HttpResponse)
    (root : Element)
    (hget : w.Get (searchURL w q) = .ok r)
    (hread : r.ReadAll = .ok data)
    (hxml : w.xmlRead data = .ok root) :
    (search w q).1.2 = none ∧
      (search w q).1.1.toList = (workElements root).map localSearchResult ∧
      (search w q).1.1.toList.length = (workElements root).length ∧
      ((∀ e ∈ workElements root, e.uniqueAttrs ∧ e.plainAttrs) →
        (search w q).1.1.toList = specDecodeSearchResults root) := by
  have hc := classifyAPI_ok w _ data r hget hread
  unfold searchURL at hc
  have hs : (search w q).1 =
      ((unmarshalSearchResponse root ClassifySearchResponse.zero).Results, none) := by
    simp [search, hc, errorIsPresent, errorIsNil, xmlUnmarshalSearch, hxml]
  have hl : (unmarshalSearchResponse root ClassifySearchResponse.zero).Results.toList =
      (workElements root).map localSearchResult := by
    rw [unmarshalSearchResponse_results, GoSlice.toList_appendAll]
    show [] ++ _ = _
    rw [List.nil_append]
    exact List.map_congr_left (fun e _ => unmarshalSearchResult_eq_local e)
  rw [hs]
  refine ⟨rfl, hl, ?_, ?_⟩
  · show (unmarshalSearchResponse root ClassifySearchResponse.zero).Results.toList.length = _
    rw [hl, List.length_map]
  · intro hwf
    show (unmarshalSearchResponse root ClassifySearchResponse.zero).Results.toList = _
    rw [hl]
    exact List.map_congr_left
      (fun e he => localSearchResult_eq_spec e (hwf e he).1 (hwf e he).2)

/-- The amended C8 at `twoWorksDoc`, two `work` elements under `works` with a
`note` between them and an `input` beside `works`: exactly two entries, in
order, attribute for attribute; and at `prefixedDoc`: one entry, Title `A`. -/
theorem search_decodes_by_local_name_witness :
    ((search twoWorksWorld "dune").1.2 = none ∧
        (search twoWorksWorld "dune").1.1.toList =
          [⟨"Dune", "Herbert", "2020", "999"⟩, ⟨"Emma", "Austen", "1816", "7"⟩] ∧
        (search twoWorksWorld "dune").1.1.toList.length = 2) ∧
      (search prefixedWorld "b").1.1.toList = [⟨"A", "", "", ""⟩] := by
  have h := search_decodes_by_local_name twoWorksWorld "dune" twoWorksPayload
    ⟨.ok twoWorksPayload⟩ twoWorksDoc rfl rfl rfl
  have h2 := search_decodes_by_local_name prefixedWorld "b" prefixedPayload
    ⟨.ok prefixedPayload⟩ prefixedDoc rfl rfl rfl
  exact ⟨⟨h.1, h.2.2.2 (by decide), h.2.2.1⟩, h2.2.1⟩

/-! ## The responses of `/` and `/search` without the failing cases -/

theorem foldl_append_left (l : List String) (a b : String) :
    l.foldl (fun r s => r ++ s) (a ++ b) = a ++ l.foldl (fun r s => r ++ s) b := by
  induction l generalizing b with
  | nil => rfl
  | cons x xs ih => rw [List.foldl_cons, List.foldl_cons, String.append_assoc, ih]

theorem join_cons (x : String) (xs : List String) :
    String.join (x :: xs) = x ++ String.join xs := by
  unfold String.join
  rw [List.foldl_cons, String.empty_append]
  have := foldl_append_left xs x ""
  rwa [String.append_empty] at this

theorem foldl_Write (pieces : List String) (res : ResponseWriter) :
    pieces.foldl ResponseWriter.Write res =
      ⟨res.wroteHeader || !pieces.isEmpty,
        if res.wroteHeader then res.code else if pieces.isEmpty then res.code else 200,
        res.body ++ String.join pieces⟩ := by
  induction pieces generalizing res with
  | nil => cases res; simp [String.join]
  | cons x xs ih =>
    rw [List.foldl_cons, ih, join_cons]
    cases res with
    | mk wh c b =>
      cases wh <;> simp [ResponseWriter.Write, ResponseWriter.WriteHeader, String.append_assoc]

theorem indexHandler_eq (w : World) (req : Request) (res : ResponseWriter) :
    indexHandler w req res =
      (if errorIsPresent (w.ExecuteTemplate "index.html" (indexPage w req)).2 then
          httpError
            ((w.ExecuteTemplate "index.html" (indexPage w req)).1.foldl ResponseWriter.Write res)
            (w.ExecuteTemplate "index.html" (indexPage w req)).2.Error StatusInternalServerError
        else (w.ExecuteTemplate "index.html" (indexPage w req)).1.foldl ResponseWriter.Write res,
       [Event.ping, Event.render "index.html" (indexPage w req)]) := by
  have hp : (⟨(if req.FormValue "name" ≠ "" then
        ({ (⟨"Gopher", false⟩ : Page) with Name := req.FormValue "name" } : Page)
        else ⟨"Gopher", false⟩).Name, errorIsNil w.Ping⟩ : Page) = indexPage w req := by
    unfold indexPage
    by_cases hn : req.FormValue "name" = "" <;> simp [hn]
  unfold indexHandler
  simp only []
  rw [hp]

/-- When the template renders without error, `/` answers 200 and the body is
what the template wrote, piece after piece. -/
theorem index_render_ok (w : World) (req : Request) (pieces : List String)
    (h : w.ExecuteTemplate "index.html" (indexPage w req) = (pieces, none)) :
    (indexHandler w req ResponseWriter.fresh).1.code = 200 ∧
      (indexHandler w req ResponseWriter.fresh).1.body = String.join pieces := by
  rw [indexHandler_eq, h]
  simp [errorIsPresent, errorIsNil, foldl_Write, ResponseWriter.fresh]

/-- When the template fails before it has written anything, `/` answers 500
and the body is the line of the error. -/
theorem index_render_error_before_output (w : World) (req : Request) (e : String)
    (h : w.ExecuteTemplate "index.html" (indexPage w req) = ([], some e)) :
    (indexHandler w req ResponseWriter.fresh).1 = ⟨true, 500, e ++ "\n"⟩ := by
  rw [indexHandler_eq, h]
  simp [errorIsPresent, errorIsNil, httpError, ResponseWriter.Write, ResponseWriter.WriteHeader,
    ResponseWriter.fresh, GoError.Error, StatusInternalServerError]



theorem GoSlice.appendAll_of_ne_nil {α : Type} (s : GoSlice α) (l : List α) (h : l ≠ []) :
    s.appendAll l = GoSlice.alloc (s.toList ++ l) := by
  induction l generalizing s with
  | nil => exact absurd rfl h
  | cons x xs ih =>
    show (s.append x).appendAll xs = _
    cases xs with
    | nil => rfl
    | cons y ys =>
      rw [ih _ (List.cons_ne_nil y ys)]
      show GoSlice.alloc ((s.toList ++ [x]) ++ y :: ys) = _
      simp

/-- When fetch and decode succeed on a document with one `work` element or
more under `works`, `/search` answers 200 and the body is the JSON array of the
entries decoded by local name, in document order, and a line feed. -/
theorem searchHandler_success_json_array (w : World) (req : Request) (data : String)
    (r : HttpResponse) (root : Element)
    (hget : w.Get (searchURL w (req.FormValue "search")) = .ok r)
    (hread : r.ReadAll = .ok data)
    (hxml : w.xmlRead data = .ok root)
    (hne : workElements root ≠ []) :
    (searchHandler w req ResponseWriter.fresh).1 =
      ⟨true, 200,
        jsonArray
            (((workElements root).map localSearchResult).map
              (marshalSearchResult w.jsonString)) ++
          "\n"⟩ := by
  have hc := classifyAPI_ok w _ data r hget hread
  unfold searchURL at hc
  have hs : (search w (req.FormValue "search")).1 =
      ((unmarshalSearchResponse root ClassifySearchResponse.zero).Results, none) := by
    simp [search, hc, errorIsPresent, errorIsNil, xmlUnmarshalSearch, hxml]
  have hres : (unmarshalSearchResponse root ClassifySearchResponse.zero).Results =
      GoSlice.alloc ((workElements root).map localSearchResult) := by
    rw [unmarshalSearchResponse_results, GoSlice.appendAll_of_ne_nil _ _ (by simpa using hne)]
    show GoSlice.alloc ([] ++ _) = _
    rw [List.nil_append]
    exact congrArg GoSlice.alloc
      (List.map_congr_left (fun e _ => unmarshalSearchResult_eq_local e))
  simp [searchHandler, hs, hres, jsonEncode, marshalResults, ResponseWriter.Write,
    ResponseWriter.WriteHeader, ResponseWriter.fresh, errorIsPresent, errorIsNil]

/-- The page of `/?name=Ada` in a world where everything works. -/
theorem index_render_ok_witness :
    (indexHandler healthyWorld ⟨[("name", "Ada")]⟩ ResponseWriter.fresh).1.code = 200 ∧
      (indexHandler healthyWorld ⟨[("name", "Ada")]⟩ ResponseWriter.fresh).1.body =
        "<h1>Hello, Ada</h1>" :=
  index_render_ok healthyWorld ⟨[("name", "Ada")]⟩ ["<h1>Hello, ", "Ada", "</h1>"] rfl

/-- The response of `/` when the template is missing. -/
theorem index_render_error_before_output_witness :
    (indexHandler missingTemplateWorld ⟨[]⟩ ResponseWriter.fresh).1 =
      ⟨true, 500, "html/template: \"index.html\" is undefined\n"⟩ :=
  index_render_error_before_output missingTemplateWorld ⟨[]⟩
    "html/template: \"index.html\" is undefined" rfl

/-- The response of `/search` for the document with two `work` elements. -/
theorem searchHandler_success_json_array_witness :
    (searchHandler twoWorksWorld ⟨[("search", "dune")]⟩ ResponseWriter.fresh).1 =
      ⟨true, 200,
        "[\x7b\"Title\":\"Dune\",\"Author\":\"Herbert\",\"Year\":\"2020\",\"ID\":\"999\"\x7d," ++
          "\x7b\"Title\":\"Emma\",\"Author\":\"Austen\",\"Year\":\"1816\",\"ID\":\"7\"\x7d]\n"⟩ :=
  searchHandler_success_json_array twoWorksWorld ⟨[("search", "dune")]⟩
    twoWorksPayload ⟨.ok twoWorksPayload⟩
    twoWorksDoc rfl rfl rfl (List.ne_nil_of_length_pos (by decide))

end GoWebServer
